import Mathlib

/-!
Shallow embedding of the ephemeral secret-sharing backend (src/src/index.js):
configuration constants, payload/id validation, TTL policy, id generation,
the KV store lifecycle, the create and read handlers, and the two-window
rate-limit middleware, together with theorems settling the spec claims.
-/

set_option autoImplicit false

namespace Nice

/-! ## Configuration constants (CONFIG in index.js) -/

def MAX_PAYLOAD_SIZE : Nat := 10 * 1024 * 1024

def ID_LENGTH : Nat := 16

def MAX_ID_LENGTH : Nat := 32

def MIN_TTL : Nat := 60

def DEFAULT_TTL : Nat := 24 * 60 * 60

def READ_ONCE_TTL : Nat := 24 * 60 * 60

/-- `CONFIG.TTL_MAP` as a key lookup: the five named buckets, any other key
absent (JS property access on the object literal). -/
def TTL_MAP (k : String) : Option Nat :=
  if k = "5min" then some (5 * 60)
  else if k = "30min" then some (30 * 60)
  else if k = "1hour" then some (60 * 60)
  else if k = "6hour" then some (6 * 60 * 60)
  else if k = "1day" then some (24 * 60 * 60)
  else none

/-! ## JavaScript values

Request-body fields can be absent or of the wrong type; the handlers test
them with JS truthiness and `typeof`, so we embed a small JS value type. -/

inductive JsVal
  | vUndefined
  | vNull
  | vBool (b : Bool)
  | vNum (n : Int)
  | vStr (s : String)
deriving DecidableEq

/-- JS truthiness of a value (`!x` negates this). -/
def truthy : JsVal → Bool
  | .vUndefined => false
  | .vNull => false
  | .vBool b => b
  | .vNum n => n != 0
  | .vStr s => s != ""

/-- JS `typeof`. -/
def jsTypeof : JsVal → String
  | .vUndefined => "undefined"
  | .vNull => "object"
  | .vBool _ => "boolean"
  | .vNum _ => "number"
  | .vStr _ => "string"

/-- The string content of a JS value; only consulted after a `typeof`
check has established the value is a string. -/
def jsStrVal : JsVal → String
  | .vStr s => s
  | _ => ""

/-! ## Validators (validatePayload, validateSecretId) -/

/-- The `{ valid, error? }` objects returned by the validators. -/
structure ValidationResult where
  valid : Bool
  error : Option String
deriving DecidableEq

/-- `validatePayload` (index.js lines 49-55), check for check in source
order: JS-falsy (which includes the empty string), non-string type, zero
length, oversized. -/
def validatePayload (encryptedPayload : JsVal) : ValidationResult :=
  if truthy encryptedPayload = false then
    ⟨false, some "Encrypted payload is required"⟩
  else if jsTypeof encryptedPayload ≠ "string" then
    ⟨false, some "Invalid payload type"⟩
  else if (jsStrVal encryptedPayload).length = 0 then
    ⟨false, some "Payload cannot be empty"⟩
  else if (jsStrVal encryptedPayload).length > MAX_PAYLOAD_SIZE then
    ⟨false, some "Payload too large"⟩
  else
    ⟨true, none⟩

/-- Character class of the regex `[A-Za-z0-9]`. -/
def isAlnumChar (c : Char) : Bool :=
  ('A' ≤ c && c ≤ 'Z') || ('a' ≤ c && c ≤ 'z') || ('0' ≤ c && c ≤ '9')

/-- `validateSecretId` (index.js lines 57-62). The route parameter is
always a string, so `!id || typeof id !== 'string'` reduces to `id = ""`;
the regex `^[A-Za-z0-9]+$` is "nonempty and every char alphanumeric", and
nonemptiness is already settled by the first check. -/
def validateSecretId (id : String) : ValidationResult :=
  if id = "" then ⟨false, some "Invalid ID"⟩
  else if id.length > MAX_ID_LENGTH then ⟨false, some "Invalid ID length"⟩
  else if id.toList.all isAlnumChar = false then ⟨false, some "Invalid ID format"⟩
  else ⟨true, none⟩

/-! ## TTL policy (effectiveKvTtl, index.js lines 144-147) -/

/-- JS `x || d` on the result of the TTL-map lookup: an absent key
(undefined) or a falsy value falls back to the default. -/
def jsOrNat (x : Option Nat) (d : Nat) : Nat :=
  match x with
  | some v => if v = 0 then d else v
  | none => d

/-- `CONFIG.TTL_MAP[expiryOption]` with a possibly absent option. -/
def ttlMapGet (expiryOption : Option String) : Option Nat :=
  match expiryOption with
  | some k => TTL_MAP k
  | none => none

/-- The effective KV TTL:
`Math.max(readOnce ? READ_ONCE_TTL : (TTL_MAP[expiryOption] || DEFAULT_TTL), MIN_TTL)`. -/
def effectiveKvTtl (expiryOption : Option String) (readOnce : Bool) : Nat :=
  max (if readOnce then READ_ONCE_TTL else jsOrNat (ttlMapGet expiryOption) DEFAULT_TTL)
    MIN_TTL

/-! ## Id generation (generateId, index.js lines 40-47) -/

/-- The 62-character alphabet of `generateId`. -/
def idChars : List Char :=
  "ABCDEFGHIJKLMNOPQRSTUVWXYZabcdefghijklmnopqrstuvwxyz0123456789".toList

/-- `characters[v % characters.length]` for one random byte `v`. -/
def idChar (v : Nat) : Char :=
  idChars.getD (v % idChars.length) 'A'

/-- `generateId` applied to the drawn random bytes (each in 0..255). -/
def generateId (bytes : List Nat) : String :=
  String.mk (bytes.map idChar)

/-- Number of byte values in 0..255 that `generateId` maps to character
`c`; bias analysis of the random-to-alphabet mapping. -/
def preimageCount (c : Char) : Nat :=
  ((List.range 256).filter (fun v => idChar v = c)).length

/-! ## The KV store (SECRETS_KV)

The TTL-capable key-value backend, modelled as an association list of
live entries. `put` stores value, expiration TTL and metadata together;
lookup takes the most recent entry, so a `put` on an existing key
overwrites. -/

/-- The metadata object stored alongside a secret. -/
structure Metadata where
  readOnce : Bool
  creationTime : Nat
  userExpiryOption : Option String
deriving DecidableEq

/-- One stored secret: value, `expirationTtl` passed to `put`, metadata. -/
structure Entry where
  value : String
  expirationTtl : Nat
  metadata : Metadata
deriving DecidableEq

/-- The live contents of the KV namespace. -/
abbrev KvStore := List (String × Entry)

/-- First entry stored under `id`, if any. -/
def kvFind : KvStore → String → Option Entry
  | [], _ => none
  | (k, e) :: rest, id => if k = id then some e else kvFind rest id

/-- `SECRETS_KV.get(id)`: the stored value, or null when absent. -/
def kvGet (store : KvStore) (id : String) : Option String :=
  (kvFind store id).map Entry.value

/-- `SECRETS_KV.getWithMetadata(id)`: value and metadata in one round trip. -/
def kvGetWithMetadata (store : KvStore) (id : String) : Option Entry :=
  kvFind store id

/-- `SECRETS_KV.put(id, value, {expirationTtl, metadata})`. -/
def kvPut (store : KvStore) (id : String) (value : String) (ttl : Nat)
    (md : Metadata) : KvStore :=
  (id, ⟨value, ttl, md⟩) :: store

/-- `SECRETS_KV.delete(id)`: removes every entry under `id`; idempotent,
a no-op on an absent id. -/
def kvDelete : KvStore → String → KvStore
  | [], _ => []
  | (k, e) :: rest, id => if k = id then kvDelete rest id else (k, e) :: kvDelete rest id

/-! ## Handler outcomes and operation traces -/

/-- Observable operations the create/read handlers perform against the
random source and the store, in order. Validation failures must produce an
empty trace (claim: short-circuit before any store access). -/
inductive TraceOp
  | genIdOp
  | getOp (id : String)
  | getMetaOp (id : String)
  | putOp (id : String)
deriving DecidableEq

/-- Responses of `POST /api/create` (the generic 500 arises only from a
thrown collaborator error, outside this pure model). -/
inductive CreateResp
  | badRequest (error : String)
  | serviceBusy
  | createdOk (secretId : String)
deriving DecidableEq

/-- HTTP status of a create response: 400 validation, 503 allocator
exhaustion ("Service busy, please try again"), 200 success. -/
def createRespStatus : CreateResp → Nat
  | .badRequest _ => 400
  | .serviceBusy => 503
  | .createdOk _ => 200

/-- Responses of `GET /api/secret/:id`. -/
inductive ReadResp
  | badRequest (error : String)
  | notFound
  | okSecret (encryptedPayload : String) (metadata : Metadata)
deriving DecidableEq

/-- HTTP status of a read response. -/
def readRespStatus : ReadResp → Nat
  | .badRequest _ => 400
  | .notFound => 404
  | .okSecret _ _ => 200

/-! ## Id allocation (index.js lines 128-141) -/

/-- The `while (attempts < 3)` loop: generate a candidate, `get` it from
the store, accept if absent, else count the attempt and retry. `attempts`
is the loop counter feeding the random stream `gen`; the fuel is
`3 - attempts`. Returns the accepted id (none when all attempts saw an
occupant) and the trace of generator/store operations. -/
def allocAux (store : KvStore) (gen : Nat → String) (attempts : Nat) :
    Nat → Option String × List TraceOp
  | 0 => (none, [])
  | fuel + 1 =>
    let candidate := gen attempts
    if (kvGet store candidate).isNone then
      (some candidate, [TraceOp.genIdOp, TraceOp.getOp candidate])
    else
      let rest := allocAux store gen (attempts + 1) fuel
      (rest.1, TraceOp.genIdOp :: TraceOp.getOp candidate :: rest.2)

/-- Collision-checked id allocation: at most 3 attempts. -/
def allocateId (store : KvStore) (gen : Nat → String) : Option String × List TraceOp :=
  allocAux store gen 0 3

/-! ## Create handler (index.js lines 112-167) -/

/-- The parsed JSON body of a create request:
`{ encryptedPayload, expiryOption, readOnce }`. -/
structure CreateBody where
  encryptedPayload : JsVal
  expiryOption : Option String
  readOnce : JsVal
deriving DecidableEq

/-- `POST /api/create`: validate the payload, allocate an id, compute the
TTL, store value+metadata, return the id. Result: response, store after
the request, operation trace. -/
def createSecret (store : KvStore) (body : CreateBody) (gen : Nat → String)
    (now : Nat) : CreateResp × KvStore × List TraceOp :=
  let validation := validatePayload body.encryptedPayload
  if validation.valid = false then
    (.badRequest (validation.error.getD ""), store, [])
  else
    let alloc := allocateId store gen
    match alloc.1 with
    | none => (.serviceBusy, store, alloc.2)
    | some secretId =>
      let ttl := effectiveKvTtl body.expiryOption (truthy body.readOnce)
      let md : Metadata := ⟨truthy body.readOnce, now, body.expiryOption⟩
      (.createdOk secretId,
        kvPut store secretId (jsStrVal body.encryptedPayload) ttl md,
        alloc.2 ++ [TraceOp.putOp secretId])

/-! ## Read handler (index.js lines 169-197) -/

/-- `GET /api/secret/:id`: validate the id, fetch value+metadata, 404 when
absent (or the stored value is falsy), and for a read-once secret schedule
a background delete of the id via `waitUntil`. Result: response, operation
trace, list of scheduled cleanup deletes. -/
def readSecret (store : KvStore) (id : String) :
    ReadResp × List TraceOp × List String :=
  let validation := validateSecretId id
  if validation.valid = false then
    (.badRequest (validation.error.getD ""), [], [])
  else
    match kvGetWithMetadata store id with
    | none => (.notFound, [TraceOp.getMetaOp id], [])
    | some found =>
      if found.value = "" then (.notFound, [TraceOp.getMetaOp id], [])
      else
        (.okSecret found.value found.metadata, [TraceOp.getMetaOp id],
          if found.metadata.readOnce then [id] else [])

/-- The store after the scheduled cleanup deletes of a read have run. -/
def storeAfterRead (store : KvStore) (id : String) : KvStore :=
  (readSecret store id).2.2.foldl kvDelete store

/-- `.catch(err => console.error('Delete Error:', err))` on the scheduled
delete: a failure is logged, a success logs nothing; nothing is returned
to the response in either case. -/
def cleanupLogs : Except String Unit → List String
  | .error err => ["Delete Error: " ++ err]
  | .ok _ => []

/-- What the caller and the operator observe from a read whose scheduled
cleanup delete finished with `deleteResult`: the already-determined
response, and the cleanup logs. -/
def readOnceObservable (store : KvStore) (id : String)
    (deleteResult : Except String Unit) : ReadResp × List String :=
  ((readSecret store id).1, cleanupLogs deleteResult)

/-! ## Rate-limit middleware (index.js lines 75-108) -/

/-- Admission decision of the middleware. -/
inductive RlOutcome
  | configError
  | denyShort
  | denyLong
  | allow
deriving DecidableEq

/-- `Promise.all` over the two limiter calls: an error in either check
rejects the whole, otherwise both `{success}` booleans are available. -/
def promiseAll (a b : Except String Bool) : Except String (Bool × Bool) :=
  match a, b with
  | .error e, _ => .error e
  | .ok _, .error e => .error e
  | .ok x, .ok y => .ok (x, y)

/-- The rate-limit middleware for a non-OPTIONS request: missing bindings
are a 500 configuration error; a throwing limiter check is caught, logged
(`Rate Limit Error`) and the request is allowed through; otherwise the
short-window result is consulted before the long-window one. Result:
outcome and console logs. -/
def rateLimit (hasBindings : Bool) (shortRes longRes : Except String Bool) :
    RlOutcome × List String :=
  if hasBindings = false then
    (.configError, ["Rate Limiter bindings missing"])
  else
    match promiseAll shortRes longRes with
    | .error e => (.allow, ["Rate Limit Error: " ++ e])
    | .ok (shortSuccess, longSuccess) =>
      if shortSuccess = false then (.denyShort, [])
      else if longSuccess = false then (.denyLong, [])
      else (.allow, [])

/-- HTTP status attached to a middleware outcome (none: fall through to
the route handler). -/
def rlStatus : RlOutcome → Option Nat
  | .configError => some 500
  | .denyShort => some 429
  | .denyLong => some 429
  | .allow => none

/-- Error body attached to a middleware outcome. -/
def rlErrorBody : RlOutcome → Option String
  | .configError => some "Server configuration error"
  | .denyShort => some "Too Many Requests (Rate limit exceeded: 30s)"
  | .denyLong => some "Too Many Requests (Rate limit exceeded: Daily)"
  | .allow => none

/-! ## Store lemmas -/

/-- After `delete(id)` no entry is found under `id`. -/
theorem kvFind_kvDelete (store : KvStore) (id : String) :
    kvFind (kvDelete store id) id = none := by
  induction store with
  | nil => rfl
  | cons hd tl ih =>
    obtain ⟨k, e⟩ := hd
    by_cases h : k = id
    · simp [kvDelete, h, ih]
    · simp [kvDelete, kvFind, h, ih]

/-! ## Generated-id lemmas -/

/-- Every character `generateId` can emit is alphanumeric. -/
theorem idChar_alnum (v : Nat) : isAlnumChar (idChar v) = true := by
  have hlen : idChars.length = 62 := by decide
  have hlt : v % idChars.length < 62 := by
    rw [hlen]; exact Nat.mod_lt _ (by norm_num)
  have hall : ∀ k : Fin 62, isAlnumChar (idChars.getD k.val 'A') = true := by decide
  have := hall ⟨v % idChars.length, hlt⟩
  simpa [idChar] using this

/-- A generated id has one character per random byte drawn. -/
theorem generateId_length (bytes : List Nat) :
    (generateId bytes).length = bytes.length := by
  simp [generateId, String.length]

/-- An id generated from the default 16 random bytes passes id validation. -/
theorem generateId_valid (bytes : List Nat) (h : bytes.length = 16) :
    (validateSecretId (generateId bytes)).valid = true := by
  have hlen : (generateId bytes).length = 16 := by rw [generateId_length, h]
  have hne : generateId bytes ≠ "" := by
    intro hcontra
    rw [hcontra] at hlen
    simp [String.length] at hlen
  have hall : ∀ c ∈ (generateId bytes).data, isAlnumChar c = true := by
    intro c hc
    simp only [generateId] at hc
    obtain ⟨v, _, rfl⟩ := List.mem_map.mp hc
    exact idChar_alnum v
  have hno : ¬ ∃ x ∈ (generateId bytes).data, isAlnumChar x = false := by
    rintro ⟨x, hx, hfx⟩
    rw [hall x hx] at hfx
    cases hfx
  simp [validateSecretId, hne, hlen, MAX_ID_LENGTH, String.toList, hno]

/-! ## Handler characterizations -/

/-- A nonempty string payload within the size bound passes validation. -/
theorem validatePayload_str (s : String) (h1 : s ≠ "") (h2 : s.length ≤ MAX_PAYLOAD_SIZE) :
    validatePayload (.vStr s) = ⟨true, none⟩ := by
  have hlen : s.length ≠ 0 := by
    intro hzero
    exact h1 (String.ext (List.length_eq_zero.mp hzero))
  simp [validatePayload, truthy, jsTypeof, jsStrVal, h1, hlen, Nat.not_lt.mpr h2]

/-- A read of a valid id whose entry is live returns the payload and
metadata, and schedules cleanup exactly when the entry is read-once. -/
theorem readSecret_found (store : KvStore) (id : String) (e : Entry)
    (hv : (validateSecretId id).valid = true)
    (hlk : kvFind store id = some e)
    (hne : e.value ≠ "") :
    readSecret store id =
      (.okSecret e.value e.metadata, [TraceOp.getMetaOp id],
        if e.metadata.readOnce then [id] else []) := by
  simp [readSecret, kvGetWithMetadata, hlk, hne, hv]

/-- Allocation step on a free candidate: accept it. -/
theorem allocAux_accept (store : KvStore) (gen : Nat → String) (a f : Nat)
    (h : kvGet store (gen a) = none) :
    allocAux store gen a (f + 1) =
      (some (gen a), [TraceOp.genIdOp, TraceOp.getOp (gen a)]) := by
  simp [allocAux, h]

/-- Allocation step on an occupied candidate: count the attempt and retry. -/
theorem allocAux_skip (store : KvStore) (gen : Nat → String) (a f : Nat) (v : String)
    (h : kvGet store (gen a) = some v) :
    allocAux store gen a (f + 1) =
      ((allocAux store gen (a + 1) f).1,
        TraceOp.genIdOp :: TraceOp.getOp (gen a) :: (allocAux store gen (a + 1) f).2) := by
  simp [allocAux, h]

/-- A create with a valid payload whose first candidate id is free stores
exactly one new entry carrying the payload, the computed TTL and the
verbatim metadata. -/
theorem createSecret_spec (store : KvStore) (s : String) (eo : Option String)
    (ro : JsVal) (gen : Nat → String) (now : Nat)
    (h1 : s ≠ "") (h2 : s.length ≤ MAX_PAYLOAD_SIZE)
    (hfree : kvGet store (gen 0) = none) :
    createSecret store ⟨.vStr s, eo, ro⟩ gen now =
      (.createdOk (gen 0),
        (gen 0, ⟨s, effectiveKvTtl eo (truthy ro), ⟨truthy ro, now, eo⟩⟩) :: store,
        [TraceOp.genIdOp, TraceOp.getOp (gen 0), TraceOp.putOp (gen 0)]) := by
  have hval := validatePayload_str s h1 h2
  have halloc : allocateId store gen =
      (some (gen 0), [TraceOp.genIdOp, TraceOp.getOp (gen 0)]) := by
    have heq : allocateId store gen = allocAux store gen 0 (2 + 1) := rfl
    rw [heq, allocAux_accept store gen 0 2 hfree]
  simp [createSecret, hval, halloc, kvPut, jsStrVal]

/-- The allocation loop draws at most `fuel` candidates. -/
theorem allocAux_count (store : KvStore) (gen : Nat → String) :
    ∀ fuel a, ((allocAux store gen a fuel).2.count TraceOp.genIdOp) ≤ fuel := by
  intro fuel
  induction fuel with
  | zero => intro a; simp [allocAux]
  | succ f ih =>
    intro a
    cases hk : kvGet store (gen a) with
    | none =>
      rw [allocAux_accept store gen a f hk]
      simp [List.count_cons]
    | some v =>
      rw [allocAux_skip store gen a f v hk]
      have := ih (a + 1)
      simp [List.count_cons]
      omega

/-- An id returned by the allocation loop was checked against the store
and observed free. -/
theorem allocAux_sound (store : KvStore) (gen : Nat → String) :
    ∀ fuel a id, (allocAux store gen a fuel).1 = some id →
      kvGet store id = none ∧ TraceOp.getOp id ∈ (allocAux store gen a fuel).2 := by
  intro fuel
  induction fuel with
  | zero => intro a id h; simp [allocAux] at h
  | succ f ih =>
    intro a id h
    cases hk : kvGet store (gen a) with
    | none =>
      rw [allocAux_accept store gen a f hk] at h ⊢
      simp only [Option.some.injEq] at h
      subst h
      exact ⟨hk, by simp⟩
    | some v =>
      rw [allocAux_skip store gen a f v hk] at h ⊢
      have hrec := ih (a + 1) id h
      exact ⟨hrec.1, by simp [hrec.2]⟩

/-- When every candidate the loop can draw is occupied, allocation
returns none. -/
theorem allocAux_exhaust (store : KvStore) (gen : Nat → String) :
    ∀ fuel a, (∀ k, k < fuel → (kvGet store (gen (a + k))).isSome = true) →
      (allocAux store gen a fuel).1 = none := by
  intro fuel
  induction fuel with
  | zero => intro a h; rfl
  | succ f ih =>
    intro a h
    have h0 : (kvGet store (gen a)).isSome = true := by
      have := h 0 (Nat.succ_pos f)
      simpa using this
    obtain ⟨v, hv⟩ := Option.isSome_iff_exists.mp h0
    rw [allocAux_skip store gen a f v hv]
    exact ih (a + 1) (fun k hk => by
      have hidx : a + 1 + k = a + (k + 1) := by omega
      rw [hidx]
      exact h (k + 1) (Nat.succ_lt_succ hk))

/-! ## Claim theorems -/

/-- C1: for a stored read-once secret, a successful read returns the
payload with status 200 and schedules a store delete of that id to run
after the response; the already-determined response does not depend on
the outcome of the scheduled delete, whose failure is only logged; and a
read performed after the cleanup delete completes returns NotFound (404). -/
theorem c1_read_once_protocol (store : KvStore) (id : String) (e : Entry)
    (hv : (validateSecretId id).valid = true)
    (hfind : kvGetWithMetadata store id = some e)
    (hval : e.value ≠ "")
    (hro : e.metadata.readOnce = true) :
    (readSecret store id).1 = ReadResp.okSecret e.value e.metadata
    ∧ readRespStatus (readSecret store id).1 = 200
    ∧ (readSecret store id).2.2 = [id]
    ∧ (∀ r1 r2 : Except String Unit,
        (readOnceObservable store id r1).1 = (readOnceObservable store id r2).1)
    ∧ (∀ msg, cleanupLogs (Except.error msg) = ["Delete Error: " ++ msg])
    ∧ (readSecret (storeAfterRead store id) id).1 = ReadResp.notFound
    ∧ readRespStatus ReadResp.notFound = 404 := by
  have hr : readSecret store id =
      (.okSecret e.value e.metadata, [TraceOp.getMetaOp id], [id]) := by
    rw [readSecret_found store id e hv hfind hval, hro]
    simp
  have hsar : storeAfterRead store id = kvDelete store id := by
    simp [storeAfterRead, hr]
  have h2 : (readSecret (kvDelete store id) id).1 = ReadResp.notFound := by
    simp [readSecret, hv, kvGetWithMetadata, kvFind_kvDelete]
  exact ⟨by rw [hr], by rw [hr]; rfl, by rw [hr], fun r1 r2 => rfl, fun msg => rfl,
    by rw [hsar]; exact h2, rfl⟩

/-- C1 witness: the read-once protocol on a concrete one-secret store. -/
theorem c1_read_once_protocol_witness :
    (readSecret [("AAAAAAAAAAAAAAAA", ⟨"x", 86400, ⟨true, 0, none⟩⟩)] "AAAAAAAAAAAAAAAA").1
        = ReadResp.okSecret "x" ⟨true, 0, none⟩
    ∧ (readSecret [("AAAAAAAAAAAAAAAA", ⟨"x", 86400, ⟨true, 0, none⟩⟩)] "AAAAAAAAAAAAAAAA").2.2
        = ["AAAAAAAAAAAAAAAA"]
    ∧ (readSecret (storeAfterRead [("AAAAAAAAAAAAAAAA", ⟨"x", 86400, ⟨true, 0, none⟩⟩)]
          "AAAAAAAAAAAAAAAA") "AAAAAAAAAAAAAAAA").1 = ReadResp.notFound := by
  have h := c1_read_once_protocol [("AAAAAAAAAAAAAAAA", ⟨"x", 86400, ⟨true, 0, none⟩⟩)]
      "AAAAAAAAAAAAAAAA" ⟨"x", 86400, ⟨true, 0, none⟩⟩ (by decide) (by decide) (by decide) rfl
  exact ⟨h.1, h.2.2.1, h.2.2.2.2.2.1⟩

/-- C2: create with a valid payload and readOnce false, then read of the
returned id, yields the payload byte-identical together with the
originally supplied metadata (readOnce false, the supplied expiry option,
the creation time); nothing is scheduled for deletion, and a second read
of the same id still returns 200 with the same payload. -/
theorem c2_round_trip (store : KvStore) (s : String) (eo : Option String)
    (bytes : List Nat) (gen : Nat → String) (now : Nat)
    (hgen : gen 0 = generateId bytes) (hblen : bytes.length = 16)
    (hs1 : s ≠ "") (hs2 : s.length ≤ MAX_PAYLOAD_SIZE)
    (hfree : kvGet store (gen 0) = none) :
    (createSecret store ⟨.vStr s, eo, .vBool false⟩ gen now).1
        = CreateResp.createdOk (gen 0)
    ∧ (readSecret (createSecret store ⟨.vStr s, eo, .vBool false⟩ gen now).2.1 (gen 0)).1
        = ReadResp.okSecret s ⟨false, now, eo⟩
    ∧ (readSecret (createSecret store ⟨.vStr s, eo, .vBool false⟩ gen now).2.1 (gen 0)).2.2
        = []
    ∧ (readSecret (storeAfterRead
          (createSecret store ⟨.vStr s, eo, .vBool false⟩ gen now).2.1 (gen 0)) (gen 0)).1
        = ReadResp.okSecret s ⟨false, now, eo⟩ := by
  have hcs := createSecret_spec store s eo (.vBool false) gen now hs1 hs2 hfree
  have hvalid : (validateSecretId (gen 0)).valid = true := by
    rw [hgen]; exact generateId_valid bytes hblen
  have hstore : (createSecret store ⟨.vStr s, eo, .vBool false⟩ gen now).2.1
      = (gen 0, (⟨s, effectiveKvTtl eo false, ⟨false, now, eo⟩⟩ : Entry)) :: store := by
    rw [hcs]
    rfl
  have hfind : kvFind
      ((gen 0, (⟨s, effectiveKvTtl eo false, ⟨false, now, eo⟩⟩ : Entry)) :: store) (gen 0)
      = some ⟨s, effectiveKvTtl eo false, ⟨false, now, eo⟩⟩ := by
    simp [kvFind]
  have hread2 : readSecret
      ((gen 0, (⟨s, effectiveKvTtl eo false, ⟨false, now, eo⟩⟩ : Entry)) :: store) (gen 0)
      = (.okSecret s ⟨false, now, eo⟩, [TraceOp.getMetaOp (gen 0)], []) := by
    rw [readSecret_found _ (gen 0) _ hvalid hfind hs1]
    simp
  have hsar : storeAfterRead
      ((gen 0, (⟨s, effectiveKvTtl eo false, ⟨false, now, eo⟩⟩ : Entry)) :: store) (gen 0)
      = (gen 0, (⟨s, effectiveKvTtl eo false, ⟨false, now, eo⟩⟩ : Entry)) :: store := by
    simp [storeAfterRead, hread2]
  refine ⟨by rw [hcs], ?_, ?_, ?_⟩
  · rw [hstore, hread2]
  · rw [hstore, hread2]
  · rw [hstore, hsar, hread2]

/-- C2 witness: Scenario A on the empty store with a concrete generated id. -/
theorem c2_round_trip_witness :
    (createSecret [] ⟨.vStr "abc123", some "5min", .vBool false⟩
        (fun _ => generateId (List.replicate 16 0)) 7).1
      = CreateResp.createdOk (generateId (List.replicate 16 0))
    ∧ (readSecret (createSecret [] ⟨.vStr "abc123", some "5min", .vBool false⟩
        (fun _ => generateId (List.replicate 16 0)) 7).2.1 (generateId (List.replicate 16 0))).1
      = ReadResp.okSecret "abc123" ⟨false, 7, some "5min"⟩
    ∧ (readSecret (createSecret [] ⟨.vStr "abc123", some "5min", .vBool false⟩
        (fun _ => generateId (List.replicate 16 0)) 7).2.1 (generateId (List.replicate 16 0))).2.2
      = []
    ∧ (readSecret (storeAfterRead (createSecret [] ⟨.vStr "abc123", some "5min", .vBool false⟩
        (fun _ => generateId (List.replicate 16 0)) 7).2.1 (generateId (List.replicate 16 0)))
        (generateId (List.replicate 16 0))).1
      = ReadResp.okSecret "abc123" ⟨false, 7, some "5min"⟩ :=
  c2_round_trip [] "abc123" (some "5min") (List.replicate 16 0)
    (fun _ => generateId (List.replicate 16 0)) 7 rfl (by decide) (by decide) (by decide) rfl

/-- C3: the effective-TTL computation is total, returns the fixed
read-once lifetime when readOnce is true, otherwise the five-bucket table
value for a recognized expiry option and the one-day default for an
absent or unrecognized one, and the result is always at least 60 seconds. -/
theorem c3_ttl_policy (eo : Option String) (ro : Bool) :
    60 ≤ effectiveKvTtl eo ro
    ∧ effectiveKvTtl eo true = READ_ONCE_TTL
    ∧ effectiveKvTtl eo false =
        (match ttlMapGet eo with
          | some v => v
          | none => DEFAULT_TTL) := by
  refine ⟨?_, ?_, ?_⟩
  · exact le_max_right _ _
  · simp [effectiveKvTtl, READ_ONCE_TTL, MIN_TTL]
  · cases eo with
    | none => simp [effectiveKvTtl, ttlMapGet, jsOrNat, DEFAULT_TTL, MIN_TTL]
    | some k =>
      simp only [effectiveKvTtl, ttlMapGet, TTL_MAP, jsOrNat, DEFAULT_TTL, MIN_TTL]
      split_ifs <;> simp_all

/-- C3 witness: the TTL policy evaluated at a concrete recognized bucket. -/
theorem c3_ttl_policy_witness :
    60 ≤ effectiveKvTtl (some "30min") false
    ∧ effectiveKvTtl (some "30min") true = READ_ONCE_TTL
    ∧ effectiveKvTtl (some "30min") false =
        (match ttlMapGet (some "30min") with
          | some v => v
          | none => DEFAULT_TTL) :=
  c3_ttl_policy (some "30min") false

/-- C4: id allocation draws at most 3 candidates, each accepted candidate
was checked against the store and observed free, exhausting all attempts
yields the ServiceBusy response, and its 503 status is distinct from the
generic 500 failure. -/
theorem c4_id_allocation (store : KvStore) (gen : Nat → String) (body : CreateBody)
    (now : Nat) :
    (allocateId store gen).2.count TraceOp.genIdOp ≤ 3
    ∧ (∀ id, (allocateId store gen).1 = some id →
        kvGet store id = none ∧ TraceOp.getOp id ∈ (allocateId store gen).2)
    ∧ ((∀ k, k < 3 → (kvGet store (gen k)).isSome = true) →
        (validatePayload body.encryptedPayload).valid = true →
        (createSecret store body gen now).1 = CreateResp.serviceBusy)
    ∧ createRespStatus CreateResp.serviceBusy = 503
    ∧ createRespStatus CreateResp.serviceBusy ≠ 500 := by
  refine ⟨allocAux_count store gen 3 0, fun id h => allocAux_sound store gen 3 0 id h,
    ?_, rfl, by decide⟩
  intro hocc hval
  have hnone : (allocateId store gen).1 = none := by
    apply allocAux_exhaust store gen 3 0
    intro k hk
    simpa using hocc k hk
  simp [createSecret, hval, hnone]

/-- C4 witness: a store occupying every candidate forces the 503 outcome. -/
theorem c4_id_allocation_witness :
    (createSecret [("B", ⟨"x", 60, ⟨false, 0, none⟩⟩)] ⟨.vStr "y", none, .vBool false⟩
        (fun _ => "B") 0).1 = CreateResp.serviceBusy
    ∧ createRespStatus CreateResp.serviceBusy = 503
    ∧ createRespStatus CreateResp.serviceBusy ≠ 500 := by
  have h := c4_id_allocation [("B", ⟨"x", 60, ⟨false, 0, none⟩⟩)] (fun _ => "B")
      ⟨.vStr "y", none, .vBool false⟩ 0
  exact ⟨h.2.2.1 (fun _ _ => rfl) (by decide), h.2.2.2.1, h.2.2.2.2⟩

/-- C5: the random-to-alphabet mapping of `generateId` is biased. The
byte range 256 is not a multiple of the 62-character alphabet and no
rejection sampling is performed, so the first characters of the alphabet
have 5 preimages among the 256 byte values while later ones have only 4 —
refuting equal preimage counts. -/
theorem c5_id_mapping_biased :
    256 % idChars.length ≠ 0
    ∧ preimageCount (idChar 0) = 5
    ∧ preimageCount (idChar 8) = 4
    ∧ preimageCount (idChar 0) ≠ preimageCount (idChar 8) := by decide

/-- C6: when the limiter infrastructure errors during the admission check,
the middleware allows the request through (fail-open) and logs a degraded
condition distinguishable from a normal allow decision, which logs nothing. -/
theorem c6_fail_open (shortRes longRes : Except String Bool) (e : String)
    (h : promiseAll shortRes longRes = Except.error e) :
    (rateLimit true shortRes longRes).1 = RlOutcome.allow
    ∧ (rateLimit true shortRes longRes).2 = ["Rate Limit Error: " ++ e]
    ∧ (rateLimit true shortRes longRes).2 ≠ []
    ∧ (rateLimit true (Except.ok true) (Except.ok true)).1 = RlOutcome.allow
    ∧ (rateLimit true (Except.ok true) (Except.ok true)).2 = [] := by
  unfold rateLimit
  rw [h]
  simp [promiseAll]

/-- C6 witness: a throwing short-window limiter call on a concrete error. -/
theorem c6_fail_open_witness :
    (rateLimit true (Except.error "kv down") (Except.ok true)).1 = RlOutcome.allow
    ∧ (rateLimit true (Except.error "kv down") (Except.ok true)).2
        = ["Rate Limit Error: " ++ "kv down"]
    ∧ (rateLimit true (Except.error "kv down") (Except.ok true)).2 ≠ []
    ∧ (rateLimit true (Except.ok true) (Except.ok true)).1 = RlOutcome.allow
    ∧ (rateLimit true (Except.ok true) (Except.ok true)).2 = [] :=
  c6_fail_open (Except.error "kv down") (Except.ok true) "kv down" rfl

/-- C7: when both window limiters have completed and the short-window
limiter denies, the short-window violation is reported with its
short-window-specific reason, whatever the long-window result. -/
theorem c7_short_window_first :
    (rateLimit true (Except.ok false) (Except.ok false)).1 = RlOutcome.denyShort
    ∧ (rateLimit true (Except.ok false) (Except.ok true)).1 = RlOutcome.denyShort
    ∧ rlErrorBody RlOutcome.denyShort = some "Too Many Requests (Rate limit exceeded: 30s)"
    ∧ rlStatus RlOutcome.denyShort = some 429
    ∧ rlErrorBody RlOutcome.denyShort ≠ rlErrorBody RlOutcome.denyLong := by decide

/-- C8: a request failing validation gets a 400 response before any store
operation: an invalid create payload performs no id generation, no store
read and no store write and leaves the store unchanged, and an invalid
read id performs no store lookup. -/
theorem c8_validation_short_circuits (store : KvStore) (body : CreateBody)
    (gen : Nat → String) (now : Nat) (id : String)
    (hp : (validatePayload body.encryptedPayload).valid = false)
    (hid : (validateSecretId id).valid = false) :
    (createSecret store body gen now).1
        = CreateResp.badRequest ((validatePayload body.encryptedPayload).error.getD "")
    ∧ createRespStatus (createSecret store body gen now).1 = 400
    ∧ (createSecret store body gen now).2.1 = store
    ∧ (createSecret store body gen now).2.2 = []
    ∧ (readSecret store id).1 = ReadResp.badRequest ((validateSecretId id).error.getD "")
    ∧ readRespStatus (readSecret store id).1 = 400
    ∧ (readSecret store id).2.1 = []
    ∧ (readSecret store id).2.2 = [] := by
  have hc : createSecret store body gen now
      = (.badRequest ((validatePayload body.encryptedPayload).error.getD ""), store, []) := by
    simp [createSecret, hp]
  have hr : readSecret store id
      = (.badRequest ((validateSecretId id).error.getD ""), [], []) := by
    simp [readSecret, hid]
  rw [hc, hr]
  exact ⟨rfl, rfl, rfl, rfl, rfl, rfl, rfl, rfl⟩

/-- C8 witness: Scenario C (empty payload) and a malformed id. -/
theorem c8_validation_short_circuits_witness :
    (createSecret [] ⟨.vStr "", none, .vUndefined⟩ (fun _ => "C") 0).1
      = CreateResp.badRequest ((validatePayload (JsVal.vStr "")).error.getD "")
    ∧ (createSecret [] ⟨.vStr "", none, .vUndefined⟩ (fun _ => "C") 0).2.1 = []
    ∧ (createSecret [] ⟨.vStr "", none, .vUndefined⟩ (fun _ => "C") 0).2.2 = []
    ∧ (readSecret [] "bad!id").1 = ReadResp.badRequest ((validateSecretId "bad!id").error.getD "")
    ∧ (readSecret [] "bad!id").2.1 = []
    ∧ (readSecret [] "bad!id").2.2 = [] := by
  have h := c8_validation_short_circuits [] ⟨.vStr "", none, .vUndefined⟩ (fun _ => "C") 0
      "bad!id" (by decide) (by decide)
  exact ⟨h.1, h.2.2.1, h.2.2.2.1, h.2.2.2.2.1, h.2.2.2.2.2.2.1, h.2.2.2.2.2.2.2⟩

/-- C9 counterexample: the four rejection cases do not each produce a
distinct error reason — an empty-string payload is rejected with the
same "Encrypted payload is required" reason as an absent payload. -/
theorem c9_counterexample :
    (validatePayload (JsVal.vStr "")).valid = false
    ∧ (validatePayload JsVal.vUndefined).valid = false
    ∧ (validatePayload (JsVal.vStr "")).error = (validatePayload JsVal.vUndefined).error := by
  decide

/-- C9 amended: payload validation rejects absent, non-string, empty and
oversized payloads, but absent, empty and every other falsy payload share
the "Encrypted payload is required" reason; truthy non-strings and
oversized strings have their own reasons, and the dedicated
"Payload cannot be empty" reason is unreachable. -/
theorem c9_validation_reasons :
    validatePayload JsVal.vUndefined = ⟨false, some "Encrypted payload is required"⟩
    ∧ validatePayload JsVal.vNull = ⟨false, some "Encrypted payload is required"⟩
    ∧ validatePayload (JsVal.vStr "") = ⟨false, some "Encrypted payload is required"⟩
    ∧ validatePayload (JsVal.vNum 5) = ⟨false, some "Invalid payload type"⟩
    ∧ validatePayload (JsVal.vBool true) = ⟨false, some "Invalid payload type"⟩
    ∧ validatePayload (JsVal.vBool false) = ⟨false, some "Encrypted payload is required"⟩
    ∧ (∀ s : String, s.length > MAX_PAYLOAD_SIZE →
        validatePayload (JsVal.vStr s) = ⟨false, some "Payload too large"⟩)
    ∧ (∀ p : JsVal, (validatePayload p).error ≠ some "Payload cannot be empty") := by
  refine ⟨by decide, by decide, by decide, by decide, by decide, by decide, ?_, ?_⟩
  · intro s hs
    have hne : s ≠ "" := by
      intro hcontra
      rw [hcontra] at hs
      simp [String.length] at hs
    have hlen : s.length ≠ 0 := by
      intro hzero
      exact hne (String.ext (List.length_eq_zero.mp hzero))
    simp [validatePayload, truthy, jsTypeof, jsStrVal, hne, hlen, hs]
  · intro p
    cases p with
    | vStr s =>
      by_cases hne : s = ""
      · subst hne; decide
      · have hlen : s.length ≠ 0 := by
          intro hzero
          exact hne (String.ext (List.length_eq_zero.mp hzero))
        by_cases hbig : s.length > MAX_PAYLOAD_SIZE <;>
          simp [validatePayload, truthy, jsTypeof, jsStrVal, hne, hlen, hbig]
    | vUndefined => decide
    | vNull => decide
    | vBool b => cases b <;> decide
    | vNum n =>
      by_cases hz : n = 0 <;> simp [validatePayload, truthy, jsTypeof, hz]

/-- C9 witness: an oversized concrete payload is rejected as too large,
and the empty-payload reason is unreachable at a concrete input. -/
theorem c9_validation_reasons_witness :
    validatePayload (JsVal.vStr (String.mk (List.replicate 10485761 'a')))
      = ⟨false, some "Payload too large"⟩
    ∧ (validatePayload (JsVal.vStr "x")).error ≠ some "Payload cannot be empty"
    ∧ validatePayload (JsVal.vStr "") = ⟨false, some "Encrypted payload is required"⟩ := by
  have h := c9_validation_reasons
  refine ⟨h.2.2.2.2.2.2.1 _ ?_, h.2.2.2.2.2.2.2 _, h.2.2.1⟩
  have hlen : (String.mk (List.replicate 10485761 'a')).length = 10485761 := by
    show (List.replicate 10485761 'a').length = 10485761
    exact List.length_replicate _ _
  rw [hlen]
  norm_num [MAX_PAYLOAD_SIZE]

/-- C10: for a create whose expiry option is absent or unrecognized, the
stored and returned metadata field userExpiryOption is the supplied value
verbatim while the effective TTL actually applied is the one-day default,
so the metadata a reader sees can disagree with the secret's lifetime. -/
theorem c10_verbatim_expiry_metadata (store : KvStore) (s : String) (eo : Option String)
    (bytes : List Nat) (gen : Nat → String) (now : Nat)
    (hgen : gen 0 = generateId bytes) (hblen : bytes.length = 16)
    (hs1 : s ≠ "") (hs2 : s.length ≤ MAX_PAYLOAD_SIZE)
    (hfree : kvGet store (gen 0) = none)
    (hunrec : ttlMapGet eo = none) :
    (createSecret store ⟨.vStr s, eo, .vBool false⟩ gen now).1 = CreateResp.createdOk (gen 0)
    ∧ effectiveKvTtl eo false = DEFAULT_TTL
    ∧ kvGetWithMetadata (createSecret store ⟨.vStr s, eo, .vBool false⟩ gen now).2.1 (gen 0)
        = some ⟨s, DEFAULT_TTL, ⟨false, now, eo⟩⟩
    ∧ (readSecret (createSecret store ⟨.vStr s, eo, .vBool false⟩ gen now).2.1 (gen 0)).1
        = ReadResp.okSecret s ⟨false, now, eo⟩ := by
  have httl : effectiveKvTtl eo false = DEFAULT_TTL := by
    simp [effectiveKvTtl, hunrec, jsOrNat, DEFAULT_TTL, MIN_TTL]
  have hcs := createSecret_spec store s eo (.vBool false) gen now hs1 hs2 hfree
  have hvalid : (validateSecretId (gen 0)).valid = true := by
    rw [hgen]; exact generateId_valid bytes hblen
  have hstore : (createSecret store ⟨.vStr s, eo, .vBool false⟩ gen now).2.1
      = (gen 0, (⟨s, DEFAULT_TTL, ⟨false, now, eo⟩⟩ : Entry)) :: store := by
    rw [hcs]
    show (gen 0, (⟨s, effectiveKvTtl eo (truthy (JsVal.vBool false)),
        ⟨truthy (JsVal.vBool false), now, eo⟩⟩ : Entry)) :: store = _
    rw [show truthy (JsVal.vBool false) = false from rfl, httl]
  have hfind : kvFind ((gen 0, (⟨s, DEFAULT_TTL, ⟨false, now, eo⟩⟩ : Entry)) :: store) (gen 0)
      = some ⟨s, DEFAULT_TTL, ⟨false, now, eo⟩⟩ := by
    simp [kvFind]
  have hread2 : readSecret
      ((gen 0, (⟨s, DEFAULT_TTL, ⟨false, now, eo⟩⟩ : Entry)) :: store) (gen 0)
      = (.okSecret s ⟨false, now, eo⟩, [TraceOp.getMetaOp (gen 0)], []) := by
    rw [readSecret_found _ (gen 0) _ hvalid hfind hs1]
    simp
  refine ⟨by rw [hcs], httl, ?_, ?_⟩
  · rw [hstore]
    exact hfind
  · rw [hstore, hread2]

/-- C10 witness: an unrecognized "2weeks" option is stored and returned
verbatim while the applied TTL is the one-day default. -/
theorem c10_verbatim_expiry_metadata_witness :
    (createSecret [] ⟨.vStr "abc123", some "2weeks", .vBool false⟩
        (fun _ => generateId (List.replicate 16 0)) 7).1
      = CreateResp.createdOk (generateId (List.replicate 16 0))
    ∧ effectiveKvTtl (some "2weeks") false = DEFAULT_TTL
    ∧ kvGetWithMetadata (createSecret [] ⟨.vStr "abc123", some "2weeks", .vBool false⟩
        (fun _ => generateId (List.replicate 16 0)) 7).2.1 (generateId (List.replicate 16 0))
      = some ⟨"abc123", DEFAULT_TTL, ⟨false, 7, some "2weeks"⟩⟩
    ∧ (readSecret (createSecret [] ⟨.vStr "abc123", some "2weeks", .vBool false⟩
        (fun _ => generateId (List.replicate 16 0)) 7).2.1 (generateId (List.replicate 16 0))).1
      = ReadResp.okSecret "abc123" ⟨false, 7, some "2weeks"⟩ :=
  c10_verbatim_expiry_metadata [] "abc123" (some "2weeks") (List.replicate 16 0)
    (fun _ => generateId (List.replicate 16 0)) 7 rfl (by decide) (by decide) (by decide) rfl
    (by decide)

end Nice
